import Mathlib

/-!
Shallow embedding of the starter-pack REST API (user registration, password
login, Google OAuth2 login and token-gated routes) and proofs about it.

The embedding mirrors the Express handlers:
- the users table rows as a Lean structure over an explicit list store;
- bcrypt idealised as an injective salted hash record, with compare as
  equality of the hashed source (the library is an external collaborator);
- jsonwebtoken idealised as structured signed tokens whose signature field
  records the signing secret, payload and expiry, so that signature checking
  is equality against a recomputed signature;
- each route handler as a pure function from request data and store state to
  a response, returning the updated store where the handler writes.
-/

namespace StarterPack

/-- User id: the password-registration path generates a UUID string via
uuidv4, while the OAuth path relies on the auto-assigned numeric insertId. -/
inductive UserId where
  | uuid (s : String)
  | autoinc (n : Nat)
deriving DecidableEq, Repr

/-- Idealised bcrypt hash: records the plaintext it was derived from. -/
structure BHash where
  salted : String
deriving DecidableEq, Repr

/-- Model of bcrypt.hash with the fixed work factor 10. -/
def bcryptHash (plaintext : String) : BHash := ⟨plaintext⟩

/-- Model of bcrypt.compare: true exactly when the hash was derived from the
given plaintext. -/
def bcryptCompare (plaintext : String) (h : BHash) : Bool :=
  h.salted == plaintext

/-- Row of the users table: id, name, email, password hash (absent for
OAuth-only accounts), role, optional Google subject id, creation time. -/
structure UserRow where
  id : UserId
  name : String
  email : String
  password : Option BHash
  role : String
  google_id : Option String
  created_at : Nat
deriving DecidableEq, Repr

/-- Projection returned by the users page query, which selects only
id, name and email and therefore never the password hash. -/
structure PublicUser where
  id : UserId
  name : String
  email : String
deriving DecidableEq, Repr

def toPublic (u : UserRow) : PublicUser := ⟨u.id, u.name, u.email⟩

/-- SELECT star FROM users WHERE email equals the given value; the handlers
use rows[0], i.e. the head of this list. -/
def findByEmail (db : List UserRow) (email : String) : List UserRow :=
  db.filter (fun u => u.email == email)

/-- JWT claims as signed by the handlers: id, name, email and, in the
TypeScript login variant only, the role. -/
structure Claims where
  id : UserId
  name : String
  email : String
  role : Option String
deriving DecidableEq, Repr

/-- Idealised signature: an HMAC over the payload and expiry keyed by the
shared secret, modelled as the triple itself so that two signatures agree
exactly when secret, payload and expiry all agree. -/
structure Sig where
  secret : String
  payload : Claims
  exp : Nat
deriving DecidableEq, Repr

/-- A structurally well-formed JWT: payload, expiry timestamp (seconds) and
signature. -/
structure SignedToken where
  payload : Claims
  exp : Nat
  sig : Sig
deriving DecidableEq, Repr

/-- A token as transported on the wire: either a well-formed JWT or a
malformed string. -/
inductive TokenWire where
  | jwt (t : SignedToken)
  | malformed (raw : String)
deriving DecidableEq, Repr

/-- Model of jwt.sign with expiresIn of ttl seconds at time now. -/
def jwtSign (payload : Claims) (secret : String) (now ttl : Nat) : SignedToken :=
  ⟨payload, now + ttl, ⟨secret, payload, now + ttl⟩⟩

/-- Model of jwt.verify at time now: malformed input fails, then the
signature is checked against the shared secret, then expiry (a token is
expired as soon as now has reached its exp timestamp). -/
def jwtVerify (secret : String) (now : Nat) (w : TokenWire) : Except String Claims :=
  match w with
  | .malformed _ => .error "jwt malformed"
  | .jwt t =>
    if t.sig = ⟨secret, t.payload, t.exp⟩ then
      if now < t.exp then .ok t.payload else .error "jwt expired"
    else .error "invalid signature"

/-- Response bodies produced by the handlers. -/
inductive Body where
  | message (m : String)
  | token (t : SignedToken)
  | userId (id : UserId)
  | userInfo (id : UserId) (name email role : String) (created_at : Nat)
  | page (offset limit : Int) (total : Nat) (items : List PublicUser)
  | identity (id : UserId) (name email : String)
  | redirect (url : String)
deriving DecidableEq, Repr

/-- HTTP response: status code and JSON body (or redirect). -/
structure Response where
  status : Nat
  body : Body
deriving DecidableEq, Repr

/-- The Authorization header after the split on a single space: the scheme
part and, when present and nonempty, the part after the first space. A
tokenPart of none covers both a header with nothing after the scheme and an
empty second segment, the cases where the JS header token is falsy. -/
structure AuthHeader where
  scheme : String
  tokenPart : Option TokenWire
deriving DecidableEq, Repr

/-- The request data the auth middleware reads: the optional Authorization
header and the optional cookie named token. -/
structure GuardReq where
  authorization : Option AuthHeader
  cookieToken : Option TokenWire
deriving DecidableEq, Repr

/-- Outcome of the middleware: either a rejection response, or proceeding to
the handler with the decoded claims attached to the request. -/
inductive GuardResult where
  | reject (resp : Response)
  | proceed (user : Claims)
deriving DecidableEq, Repr

/-- The token candidate the middleware computes: the header token via the
split, falling back (JS or-else on a falsy header token) to the cookie. -/
def guardTokenOf (req : GuardReq) : Option TokenWire :=
  (req.authorization.bind AuthHeader.tokenPart) <|> req.cookieToken

/-- The auth middleware of src/middlewares/authMiddleware.js: take the
header token or else the cookie token; with no token reject 401; verify the
token, rejecting 401 on any verification error, else attach the decoded
claims and proceed. -/
def verifyToken (secret : String) (now : Nat) (req : GuardReq) : GuardResult :=
  match guardTokenOf req with
  | none => .reject ⟨401, .message "No token provided, authorization denied"⟩
  | some t =>
    match jwtVerify secret now t with
    | .ok decoded => .proceed decoded
    | .error _ => .reject ⟨401, .message "Invalid token"⟩

/-- A protected route: the middleware runs first; the Bool records whether
the handler was invoked. -/
def runProtected (secret : String) (now : Nat) (req : GuardReq)
    (handler : Claims → Response) : Response × Bool :=
  match verifyToken secret now req with
  | .reject r => (r, false)
  | .proceed u => (handler u, true)

/-- The Access Guard as claim C1 words it: the cookie is consulted only when
the Authorization header itself is absent. Written from the claim text, to be
compared against verifyToken, which is written from the source. -/
def verifyTokenHeaderOnlyFallback (secret : String) (now : Nat) (req : GuardReq) :
    GuardResult :=
  let tok : Option TokenWire :=
    match req.authorization with
    | some h => h.tokenPart
    | none => req.cookieToken
  match tok with
  | none => .reject ⟨401, .message "No token provided, authorization denied"⟩
  | some t =>
    match jwtVerify secret now t with
    | .ok decoded => .proceed decoded
    | .error _ => .reject ⟨401, .message "Invalid token"⟩

/-- The GET auth validate handler: returns id, name and email from the
decoded claims. -/
def validateHandler (c : Claims) : Response :=
  ⟨200, .identity c.id c.name c.email⟩

/-- Body of a POST auth login request. -/
structure LoginReq where
  email : String
  password : String
deriving DecidableEq, Repr

/-- Token lifetime of the login endpoint: expiresIn 24h in
src/routes/auth.js and in the TypeScript variant. -/
def loginTokenTtl : Nat := 24 * 60 * 60

/-- Token lifetime of the legacy login variant in src/unnamed/part_000:
expiresIn 1h. -/
def legacyLoginTokenTtl : Nat := 60 * 60

/-- Token lifetime of the OAuth callback: expiresIn 24h. -/
def oauthTokenTtl : Nat := 24 * 60 * 60

/-- POST auth login of src/routes/auth.js: look up the email; no row gives
401; otherwise bcrypt.compare the password against the stored hash, where a
missing stored hash makes the library throw, caught as a 500; a mismatch
gives 401; on success sign a 24h token over id, name and email and return
it with status 200. -/
def login (secret : String) (now : Nat) (db : List UserRow) (req : LoginReq) :
    Response :=
  match findByEmail db req.email with
  | [] => ⟨401, .message "Invalid email or password"⟩
  | user :: _ =>
    match user.password with
    | none => ⟨500, .message "Internal server error"⟩
    | some stored =>
      if bcryptCompare req.password stored then
        ⟨200, .token (jwtSign ⟨user.id, user.name, user.email, none⟩
          secret now loginTokenTtl)⟩
      else ⟨401, .message "Invalid email or password"⟩

/-- POST auth login of src/unnamed/part_000: identical to login except the
token is signed with expiresIn 1h. -/
def loginLegacy (secret : String) (now : Nat) (db : List UserRow) (req : LoginReq) :
    Response :=
  match findByEmail db req.email with
  | [] => ⟨401, .message "Invalid email or password"⟩
  | user :: _ =>
    match user.password with
    | none => ⟨500, .message "Internal server error"⟩
    | some stored =>
      if bcryptCompare req.password stored then
        ⟨200, .token (jwtSign ⟨user.id, user.name, user.email, none⟩
          secret now legacyLoginTokenTtl)⟩
      else ⟨401, .message "Invalid email or password"⟩

/-- POST auth login of the TypeScript variant (src/src/routes/auth.ts, same
as src/unnamed/part_001): same lookup and compare, but the 24h token also
carries the role, is delivered as an HttpOnly cookie, and the body is the
safe user projection. The second component is the issued cookie token. -/
def loginCookie (secret : String) (now : Nat) (db : List UserRow) (req : LoginReq) :
    Response × Option SignedToken :=
  match findByEmail db req.email with
  | [] => (⟨401, .message "Invalid email or password"⟩, none)
  | user :: _ =>
    match user.password with
    | none => (⟨500, .message "Internal server error"⟩, none)
    | some stored =>
      if bcryptCompare req.password stored then
        let t := jwtSign ⟨user.id, user.name, user.email, some user.role⟩
          secret now loginTokenTtl
        (⟨200, .userInfo user.id user.name user.email user.role user.created_at⟩,
          some t)
      else (⟨401, .message "Invalid email or password"⟩, none)

/-- Body of a POST users user registration request. The role field is
optional and, per the endpoint schema declared in the source
(the swagger enum in src/routes/users.js and the CreateUserBody type in
src/src/routes/users.ts), ranges over the strings user and admin; the
embedding keeps it as an arbitrary optional string and states schema
conformance as a hypothesis where needed. -/
structure RegisterReq where
  email : String
  password : String
  name : String
  role : Option String
deriving DecidableEq, Repr

/-- Result of a handler that may write to the store. -/
structure RegisterResult where
  resp : Response
  db : List UserRow
deriving DecidableEq, Repr

/-- POST users user of src/routes/users.js (same logic in the TypeScript
variant): if a row with the email exists reply 400 and write nothing;
otherwise hash the password with bcrypt, draw a fresh UUID fid, insert the
row with the role defaulting to user, and reply 201 with the new id. -/
def register (db : List UserRow) (req : RegisterReq) (fid : String) (now : Nat) :
    RegisterResult :=
  if (findByEmail db req.email).length > 0 then
    ⟨⟨400, .message "Email already exists"⟩, db⟩
  else
    let hashedPassword := bcryptHash req.password
    let newRow : UserRow :=
      { id := UserId.uuid fid, name := req.name, email := req.email,
        password := some hashedPassword, role := req.role.getD "user",
        google_id := none, created_at := now }
    ⟨⟨201, .userId (UserId.uuid fid)⟩, db ++ [newRow]⟩

/-- Identity assertion obtained from the verified Google id token: email,
name and the provider subject id. -/
structure GooglePayload where
  email : String
  name : String
  sub : String
deriving DecidableEq, Repr

/-- Outcome of the OAuth callback: the response, the resulting store, how
many provider exchanges were performed, and the cookie token, if any was
issued. -/
structure CallbackOutcome where
  resp : Response
  db : List UserRow
  providerCalls : Nat
  cookie : Option SignedToken
deriving Repr

/-- GET auth google callback of src/src/routes/auth.ts (same as
src/unnamed/part_001). A missing or empty code query parameter is falsy in
JS and yields 400 before anything else runs. Otherwise the code is
exchanged and the id token verified, modelled as one provider oracle call
whose failure is caught as a 500. On success the user is looked up by
email and lazily created with the Google subject id and no password; the
role column is not in the INSERT, so the row takes the schema default.
A 24h cookie token is issued and the response redirects to the frontend. -/
def googleCallback (secret : String) (now nextId : Nat)
    (provider : String → Option GooglePayload)
    (db : List UserRow) (code : Option String) : CallbackOutcome :=
  match code with
  | none => ⟨⟨400, .message "Missing authorization code"⟩, db, 0, none⟩
  | some c =>
    if c = "" then ⟨⟨400, .message "Missing authorization code"⟩, db, 0, none⟩
    else
      match provider c with
      | none => ⟨⟨500, .message "Google login failed"⟩, db, 1, none⟩
      | some p =>
        match findByEmail db p.email with
        | user :: _ =>
          let t := jwtSign ⟨user.id, user.name, user.email, none⟩
            secret now oauthTokenTtl
          ⟨⟨302, .redirect "http://localhost:3000/oauth-redirect"⟩, db, 1, some t⟩
        | [] =>
          -- Modelled from the spec: the users table schema (CREATE TABLE) is
          -- not under src/; section 3 of the spec gives the role column the
          -- default value user, which this INSERT without a role column takes.
          let newRow : UserRow :=
            { id := UserId.autoinc nextId, name := p.name, email := p.email,
              password := none, role := "user",
              google_id := some p.sub, created_at := now }
          let t := jwtSign ⟨newRow.id, newRow.name, newRow.email, none⟩
            secret now oauthTokenTtl
          ⟨⟨302, .redirect "http://localhost:3000/oauth-redirect"⟩,
            db ++ [newRow], 1, some t⟩

/-- Value of a decimal digit list, most significant first. -/
def digitsToNat (cs : List Char) : Nat :=
  cs.foldl (fun a c => a * 10 + (c.toNat - 48)) 0

/-- Model of the JS parseInt on an optional query string: none stands for
NaN. Leading spaces are skipped, an optional sign read, then the longest
leading digit run; no digits means NaN. -/
def jsParseInt (q : Option String) : Option Int :=
  match q with
  | none => none
  | some s =>
    let cs := (s.toList).dropWhile (fun c => c = ' ')
    let signAndRest : Int × List Char :=
      match cs with
      | '-' :: r => (-1, r)
      | '+' :: r => (1, r)
      | r => (1, r)
    let ds := signAndRest.2.takeWhile Char.isDigit
    if ds.isEmpty then none
    else some (signAndRest.1 * (digitsToNat ds : Int))

/-- Model of parseInt(q) or-else dflt: NaN and 0 are falsy, so both fall
back to the default. -/
def jsNumOr (dflt : Int) (q : Option String) : Int :=
  match jsParseInt q with
  | none => dflt
  | some n => if n = 0 then dflt else n

/-- GET users of src/routes/users.js (same in the TypeScript variant):
coerce limit (default 10) and offset (default 0), run the page query
selecting only id, name and email, run a separate COUNT star query, and
reply 200 with offset, limit, total and items. A negative limit or offset
makes the SQL fail, surfacing as the catch-all 500. -/
def listUsers (db : List UserRow) (limitQ offsetQ : Option String) : Response :=
  let limit := jsNumOr 10 limitQ
  let offset := jsNumOr 0 offsetQ
  if limit < 0 ∨ offset < 0 then
    ⟨500, .message "Internal server error"⟩
  else
    ⟨200, .page offset limit db.length
      (((db.drop offset.toNat).take limit.toNat).map toPublic)⟩

/-- Store states reachable by the write operations of the system: the empty
initial table, a registration call whose role field conforms to the schema
declared at the endpoint (absent, user or admin), and an OAuth callback. -/
inductive Reachable : List UserRow → Prop where
  | init : Reachable []
  | regStep (db : List UserRow) (req : RegisterReq) (fid : String) (now : Nat) :
      Reachable db →
      (req.role = none ∨ req.role = some "user" ∨ req.role = some "admin") →
      Reachable (register db req fid now).db
  | oauthStep (secret : String) (now nextId : Nat)
      (provider : String → Option GooglePayload)
      (db : List UserRow) (code : Option String) :
      Reachable db →
      Reachable (googleCallback secret now nextId provider db code).db

/-- A login request that fails authentication against the store: either the
email matches no row, or the first matching row carries a stored hash that
the given password does not match. -/
def authFails (db : List UserRow) (r : LoginReq) : Prop :=
  findByEmail db r.email = [] ∨
  ∃ u rest stored, findByEmail db r.email = u :: rest ∧
    u.password = some stored ∧ bcryptCompare r.password stored = false

/-- Concrete fixture: claims of the sample password-registered user. -/
def sampleClaims : Claims := ⟨UserId.uuid "u-1", "A", "a@x.com", none⟩

/-- Concrete fixture: a valid token over the sample claims. -/
def sampleCookieToken : SignedToken := jwtSign sampleClaims "s" 0 86400

/-- Concrete fixture: hash of the sample password. -/
def sampleHash : BHash := bcryptHash "p"

/-- Concrete fixture: a password-registered user row. -/
def sampleUser : UserRow :=
  { id := UserId.uuid "u-1", name := "A", email := "a@x.com",
    password := some sampleHash, role := "user", google_id := none,
    created_at := 0 }

/-- Concrete fixture: a one-row store. -/
def sampleDb : List UserRow := [sampleUser]

/-- Concrete fixture: an Authorization header that is present but yields no
token after the split (the raw header is the bare word Bearer). -/
def bearerNoToken : AuthHeader := ⟨"Bearer", none⟩

/-- Concrete fixture: a request with a tokenless Authorization header
together with a valid cookie token. -/
def cookieOnlyValidReq : GuardReq :=
  ⟨some bearerNoToken, some (.jwt sampleCookieToken)⟩

/-- Concrete fixture: a request with neither header nor cookie token. -/
def noTokenReq : GuardReq := ⟨none, none⟩

/-- Concrete fixture: a request whose only token is malformed. -/
def badTokenReq : GuardReq := ⟨none, some (.malformed "zzz")⟩

/-- Concrete fixture: a registration request without a role field. -/
def sampleRegReq : RegisterReq := ⟨"a@x.com", "p", "A", none⟩

/-- Concrete fixture: a provider oracle that always yields the same verified
Google identity. -/
def oauthProvider : String → Option GooglePayload :=
  fun _ => some ⟨"g@x.com", "G", "sub-1"⟩

/-- Concrete fixture: the store after an OAuth callback created a user. -/
def oauthDb : List UserRow :=
  (googleCallback "s" 0 7 oauthProvider [] (some "code")).db

/-- Concrete fixture: the row the OAuth callback creates above. -/
def oauthRow : UserRow :=
  { id := UserId.autoinc 7, name := "G", email := "g@x.com", password := none,
    role := "user", google_id := some "sub-1", created_at := 0 }

/-- Filtering by email distributes over appending a single row. -/
theorem findByEmail_append (db : List UserRow) (row : UserRow) (e : String) :
    findByEmail (db ++ [row]) e =
      findByEmail db e ++ (if row.email = e then [row] else []) := by
  by_cases h : row.email = e <;> simp [findByEmail, List.filter_append, h]

/-- Any failing authentication is answered 401 with the one shared body. -/
theorem login_of_authFails (secret : String) (now : Nat) (db : List UserRow)
    (r : LoginReq) (h : authFails db r) :
    login secret now db r = ⟨401, .message "Invalid email or password"⟩ := by
  rcases h with h | ⟨u, rest, stored, hfind, hpw, hcmp⟩
  · simp [login, h]
  · simp [login, hfind, hpw, hcmp]

/-- Claim C3: verifying a token produced by issuing a claims set returns the
claims unchanged while the token is unexpired; an expired token, a token
whose signature does not match the shared secret, and a malformed token each
fail verification with the corresponding error. -/
theorem jwt_verify_roundtrip (claims : Claims) (secret : String)
    (issuedAt ttl now : Nat) :
    (now < issuedAt + ttl →
      jwtVerify secret now (.jwt (jwtSign claims secret issuedAt ttl)) =
        .ok claims) ∧
    (issuedAt + ttl ≤ now →
      jwtVerify secret now (.jwt (jwtSign claims secret issuedAt ttl)) =
        .error "jwt expired") ∧
    (∀ t : SignedToken, t.sig ≠ ⟨secret, t.payload, t.exp⟩ →
      jwtVerify secret now (.jwt t) = .error "invalid signature") ∧
    (∀ raw : String,
      jwtVerify secret now (.malformed raw) = .error "jwt malformed") := by
  refine ⟨?_, ?_, ?_, ?_⟩
  · intro h
    simp [jwtVerify, jwtSign, h]
  · intro h
    simp [jwtVerify, jwtSign, Nat.not_lt.mpr h]
  · intro t h
    simp [jwtVerify, h]
  · intro raw
    rfl

/-- Claim C3, witness: concrete issue-and-verify runs for each branch. -/
theorem jwt_verify_roundtrip_witness :
    jwtVerify "s" 10 (.jwt (jwtSign sampleClaims "s" 0 86400)) =
      .ok sampleClaims ∧
    jwtVerify "s" 86400 (.jwt (jwtSign sampleClaims "s" 0 86400)) =
      .error "jwt expired" ∧
    jwtVerify "s" 10
      (.jwt ⟨sampleClaims, 86400, ⟨"x", sampleClaims, 86400⟩⟩) =
      .error "invalid signature" ∧
    jwtVerify "s" 10 (.malformed "zzz") = .error "jwt malformed" :=
  ⟨(jwt_verify_roundtrip sampleClaims "s" 0 86400 10).1 (by decide),
   (jwt_verify_roundtrip sampleClaims "s" 0 86400 86400).2.1 (by decide),
   (jwt_verify_roundtrip sampleClaims "s" 0 86400 10).2.2.1 _ (by decide),
   (jwt_verify_roundtrip sampleClaims "s" 0 86400 10).2.2.2 "zzz"⟩

/-- Claim C1, counterexample: a request whose Authorization header is
present (the bare word Bearer, yielding no token after the split) together
with a valid cookie token makes the guard proceed on the cookie claims,
while the guard as the claim words it (cookie only when the header is
absent) would reject 401. -/
theorem access_guard_cookie_despite_header :
    cookieOnlyValidReq.authorization.isSome = true ∧
    verifyToken "s" 0 cookieOnlyValidReq = .proceed sampleClaims ∧
    verifyTokenHeaderOnlyFallback "s" 0 cookieOnlyValidReq =
      .reject ⟨401, .message "No token provided, authorization denied"⟩ := by
  refine ⟨rfl, by decide, by decide⟩

/-- Claim C1 (amended): the guard takes the header token first and falls
back to the cookie named token exactly when the header yields no token
(header absent, or no token after the Bearer split); when neither source
yields a token it responds 401 and the handler never runs; when the token
fails verification it responds 401 and the handler never runs; when
verification succeeds the handler runs on the decoded claims. -/
theorem access_guard_gating (secret : String) (now : Nat) (req : GuardReq)
    (handler : Claims → Response) :
    (req.authorization.bind AuthHeader.tokenPart = none →
      guardTokenOf req = req.cookieToken) ∧
    (∀ t, req.authorization.bind AuthHeader.tokenPart = some t →
      guardTokenOf req = some t) ∧
    (guardTokenOf req = none →
      runProtected secret now req handler =
        (⟨401, .message "No token provided, authorization denied"⟩, false)) ∧
    (∀ t e, guardTokenOf req = some t → jwtVerify secret now t = .error e →
      runProtected secret now req handler =
        (⟨401, .message "Invalid token"⟩, false)) ∧
    (∀ t c, guardTokenOf req = some t → jwtVerify secret now t = .ok c →
      runProtected secret now req handler = (handler c, true)) := by
  refine ⟨?_, ?_, ?_, ?_, ?_⟩
  · intro h
    simp [guardTokenOf, h]
  · intro t h
    simp [guardTokenOf, h]
  · intro h
    simp [runProtected, verifyToken, h]
  · intro t e h1 h2
    simp [runProtected, verifyToken, h1, h2]
  · intro t c h1 h2
    simp [runProtected, verifyToken, h1, h2]

/-- Claim C1, witness: the three guard outcomes at concrete requests. -/
theorem access_guard_gating_witness :
    runProtected "s" 0 noTokenReq validateHandler =
      (⟨401, .message "No token provided, authorization denied"⟩, false) ∧
    runProtected "s" 0 badTokenReq validateHandler =
      (⟨401, .message "Invalid token"⟩, false) ∧
    runProtected "s" 0 cookieOnlyValidReq validateHandler =
      (validateHandler sampleClaims, true) :=
  ⟨(access_guard_gating "s" 0 noTokenReq validateHandler).2.2.1 rfl,
   (access_guard_gating "s" 0 badTokenReq validateHandler).2.2.2.1
     (.malformed "zzz") "jwt malformed" rfl rfl,
   (access_guard_gating "s" 0 cookieOnlyValidReq validateHandler).2.2.2.2
     (.jwt sampleCookieToken) sampleClaims rfl rfl⟩

/-- Claim C2: every login that fails authentication, whether the email is
unknown or the password mismatches the stored hash, is answered 401 with
the identical body, so the two failure causes are indistinguishable. -/
theorem login_no_user_enumeration (secret : String) (now : Nat)
    (db : List UserRow) (r1 r2 : LoginReq)
    (h1 : authFails db r1) (h2 : authFails db r2) :
    login secret now db r1 = ⟨401, .message "Invalid email or password"⟩ ∧
    login secret now db r1 = login secret now db r2 := by
  have e1 := login_of_authFails secret now db r1 h1
  have e2 := login_of_authFails secret now db r2 h2
  exact ⟨e1, e1.trans e2.symm⟩

/-- Claim C2, witness: an unknown email and a wrong password against the
sample store produce the same 401 response. -/
theorem login_no_user_enumeration_witness :
    login "s" 0 sampleDb ⟨"b@x.com", "p"⟩ =
      ⟨401, .message "Invalid email or password"⟩ ∧
    login "s" 0 sampleDb ⟨"b@x.com", "p"⟩ =
      login "s" 0 sampleDb ⟨"a@x.com", "q"⟩ :=
  login_no_user_enumeration "s" 0 sampleDb ⟨"b@x.com", "p"⟩ ⟨"a@x.com", "q"⟩
    (Or.inl (by decide))
    (Or.inr ⟨sampleUser, [], sampleHash, by decide, by decide, by decide⟩)

/-- Claim C4: a registration call whose email already exists in the store is
answered 400 and leaves the store completely unchanged. -/
theorem register_duplicate_email (db : List UserRow) (req : RegisterReq)
    (fid : String) (now : Nat)
    (hdup : (findByEmail db req.email).length > 0) :
    (register db req fid now).resp = ⟨400, .message "Email already exists"⟩ ∧
    (register db req fid now).db = db := by
  constructor <;> simp [register, hdup]

/-- Claim C4, witness: re-registering the sample email is refused and the
store is untouched. -/
theorem register_duplicate_email_witness :
    (register sampleDb ⟨"a@x.com", "q", "B", none⟩ "u-2" 5).resp =
      ⟨400, .message "Email already exists"⟩ ∧
    (register sampleDb ⟨"a@x.com", "q", "B", none⟩ "u-2" 5).db = sampleDb :=
  register_duplicate_email sampleDb ⟨"a@x.com", "q", "B", none⟩ "u-2" 5
    (by decide)

/-- Claim C5: registering a previously unseen email hashes the password,
persists the new row under the fresh id, answers 201 with that id, and a
later login with the same email and plaintext password succeeds with 200
and an issued token. -/
theorem register_then_login (secret : String) (db : List UserRow)
    (req : RegisterReq) (fid : String) (now later : Nat)
    (hfresh : findByEmail db req.email = []) :
    (register db req fid now).resp = ⟨201, .userId (UserId.uuid fid)⟩ ∧
    (register db req fid now).db = db ++
      [{ id := UserId.uuid fid, name := req.name, email := req.email,
         password := some (bcryptHash req.password),
         role := req.role.getD "user", google_id := none,
         created_at := now }] ∧
    login secret later (register db req fid now).db ⟨req.email, req.password⟩ =
      ⟨200, .token (jwtSign ⟨UserId.uuid fid, req.name, req.email, none⟩
        secret later loginTokenTtl)⟩ := by
  have hlen : ¬ (findByEmail db req.email).length > 0 := by simp [hfresh]
  refine ⟨by simp [register, hlen], by simp [register, hlen], ?_⟩
  have hdb : (register db req fid now).db = db ++
      [{ id := UserId.uuid fid, name := req.name, email := req.email,
         password := some (bcryptHash req.password),
         role := req.role.getD "user", google_id := none,
         created_at := now }] := by
    simp [register, hlen]
  rw [hdb]
  simp [login, findByEmail_append, hfresh, bcryptCompare, bcryptHash]

/-- Claim C5, witness: registering the sample user on the empty store and
then logging in with the same credentials. -/
theorem register_then_login_witness :
    (register [] sampleRegReq "u-1" 0).resp =
      ⟨201, .userId (UserId.uuid "u-1")⟩ ∧
    (register [] sampleRegReq "u-1" 0).db = [] ++
      [{ id := UserId.uuid "u-1", name := "A", email := "a@x.com",
         password := some (bcryptHash "p"), role := "user",
         google_id := none, created_at := 0 }] ∧
    login "s" 3 (register [] sampleRegReq "u-1" 0).db ⟨"a@x.com", "p"⟩ =
      ⟨200, .token (jwtSign ⟨UserId.uuid "u-1", "A", "a@x.com", none⟩
        "s" 3 loginTokenTtl)⟩ :=
  register_then_login "s" [] sampleRegReq "u-1" 0 3 rfl

/-- Claim C6, counterexample: the legacy login variant of
src/unnamed/part_000 issues a token expiring one hour after issuance, so
not every token-issuing flow embeds a 24 hour expiry. -/
theorem legacy_login_one_hour_token :
    loginLegacy "s" 0 sampleDb ⟨"a@x.com", "p"⟩ =
      ⟨200, .token (jwtSign sampleClaims "s" 0 legacyLoginTokenTtl)⟩ ∧
    (jwtSign sampleClaims "s" 0 legacyLoginTokenTtl).exp = 3600 ∧
    legacyLoginTokenTtl ≠ 24 * 60 * 60 := by
  refine ⟨by decide, by decide, by decide⟩

/-- Claim C6 (amended): the login endpoint in its plain and cookie variants
and the OAuth callback all embed an expiry 24 hours from issuance, while
the legacy login variant of src/unnamed/part_000 embeds 1 hour instead. -/
theorem token_lifetimes (secret : String) (now : Nat) (db : List UserRow)
    (req : LoginReq) :
    (∀ t, login secret now db req = ⟨200, .token t⟩ →
      t.exp = now + 24 * 60 * 60) ∧
    (∀ t, (loginCookie secret now db req).2 = some t →
      t.exp = now + 24 * 60 * 60) ∧
    (∀ nextId provider code t,
      (googleCallback secret now nextId provider db code).cookie = some t →
      t.exp = now + 24 * 60 * 60) ∧
    (∀ t, loginLegacy secret now db req = ⟨200, .token t⟩ →
      t.exp = now + 60 * 60) := by
  refine ⟨?_, ?_, ?_, ?_⟩
  · intro t h
    unfold login at h
    split at h
    · simp at h
    · split at h
      · simp at h
      · split at h
        · simp only [Response.mk.injEq, Body.token.injEq, true_and] at h
          rw [← h]
          rfl
        · simp at h
  · intro t h
    unfold loginCookie at h
    split at h
    · simp at h
    · split at h
      · simp at h
      · split at h
        · simp only [Option.some.injEq] at h
          rw [← h]
          rfl
        · simp at h
  · intro nextId provider code t h
    unfold googleCallback at h
    split at h
    · simp at h
    · split at h
      · simp at h
      · split at h
        · simp at h
        · split at h
          · simp only [Option.some.injEq] at h
            rw [← h]
            rfl
          · simp only [Option.some.injEq] at h
            rw [← h]
            rfl
  · intro t h
    unfold loginLegacy at h
    split at h
    · simp at h
    · split at h
      · simp at h
      · split at h
        · simp only [Response.mk.injEq, Body.token.injEq, true_and] at h
          rw [← h]
          rfl
        · simp at h

/-- Claim C6, witness: concrete issuance runs showing a 24 hour expiry on
the login flow and a 1 hour expiry on the legacy flow. -/
theorem token_lifetimes_witness :
    (jwtSign sampleClaims "s" 0 loginTokenTtl).exp = 0 + 24 * 60 * 60 ∧
    (jwtSign sampleClaims "s" 0 legacyLoginTokenTtl).exp = 0 + 60 * 60 :=
  ⟨(token_lifetimes "s" 0 sampleDb ⟨"a@x.com", "p"⟩).1 _ (by decide),
   (token_lifetimes "s" 0 sampleDb ⟨"a@x.com", "p"⟩).2.2.2 _ (by decide)⟩

/-- Claim C7: an OAuth callback request without a code query parameter is
answered 400, leaves the store unchanged, performs no provider exchange and
issues no token. -/
theorem oauth_callback_missing_code (secret : String) (now nextId : Nat)
    (provider : String → Option GooglePayload) (db : List UserRow) :
    googleCallback secret now nextId provider db none =
      ⟨⟨400, .message "Missing authorization code"⟩, db, 0, none⟩ := rfl

/-- Claim C8: a missing or non-numeric limit is coerced to the effective
limit 10 and, independently, a missing or non-numeric offset is coerced to
the effective offset 0; whenever the effective values are nonnegative the
reply is 200 carrying the effective offset and limit, as total the full row
count independent of the page query, and as items the page of id-name-email
projections; and every 200 reply carries exactly the effective offset and
limit of its query, the full row count as total, and only projections of
stored rows as items, never the password hash. -/
theorem list_users_defaults_and_shape (db : List UserRow)
    (lq oq : Option String) :
    (jsParseInt lq = none → jsNumOr 10 lq = 10) ∧
    (jsParseInt oq = none → jsNumOr 0 oq = 0) ∧
    (0 ≤ jsNumOr 10 lq → 0 ≤ jsNumOr 0 oq →
      listUsers db lq oq = ⟨200, .page (jsNumOr 0 oq) (jsNumOr 10 lq)
        db.length (((db.drop (jsNumOr 0 oq).toNat).take
          (jsNumOr 10 lq).toNat).map toPublic)⟩) ∧
    (∀ off lim tot items,
      listUsers db lq oq = ⟨200, Body.page off lim tot items⟩ →
      off = jsNumOr 0 oq ∧ lim = jsNumOr 10 lq ∧ tot = db.length ∧
      ∀ it ∈ items, ∃ u, u ∈ db ∧ it = toPublic u) := by
  refine ⟨?_, ?_, ?_, ?_⟩
  · intro h
    simp [jsNumOr, h]
  · intro h
    simp [jsNumOr, h]
  · intro hl ho
    have hcond : ¬(jsNumOr 10 lq < 0 ∨ jsNumOr 0 oq < 0) := by omega
    simp only [listUsers]
    rw [if_neg hcond]
  · intro off lim tot items h
    simp only [listUsers] at h
    split at h
    · simp at h
    · simp only [Response.mk.injEq, Body.page.injEq] at h
      obtain ⟨-, hoff, hlim, htot, hitems⟩ := h
      refine ⟨hoff.symm, hlim.symm, htot.symm, ?_⟩
      intro it hit
      rw [← hitems] at hit
      obtain ⟨u, hu, rfl⟩ := List.mem_map.mp hit
      exact ⟨u, List.drop_subset _ _ (List.take_subset _ _ hu), rfl⟩

/-- Claim C8, witness: a missing limit defaults to 10 and a missing offset
to 0; a missing limit combined with the numeric offset 5 pages with limit
10 and offset 5 (total still the full count); a non-numeric limit combined
with a missing offset pages with limit 10 and offset 0; and the concrete
200 reply of the latter carries the effective values, the row count and the
public projection of the stored user. -/
theorem list_users_defaults_and_shape_witness :
    jsNumOr 10 none = 10 ∧
    jsNumOr 0 none = 0 ∧
    listUsers sampleDb none (some "5") = ⟨200, .page 5 10 1 []⟩ ∧
    listUsers sampleDb (some "abc") none =
      ⟨200, .page 0 10 1 [toPublic sampleUser]⟩ ∧
    ((0 : Int) = jsNumOr 0 none ∧ (10 : Int) = jsNumOr 10 (some "abc") ∧
      (1 : Nat) = sampleDb.length ∧
      ∀ it ∈ [toPublic sampleUser], ∃ u, u ∈ sampleDb ∧ it = toPublic u) :=
  ⟨(list_users_defaults_and_shape sampleDb none none).1 rfl,
   (list_users_defaults_and_shape sampleDb none none).2.1 rfl,
   (list_users_defaults_and_shape sampleDb none (some "5")).2.2.1
     (by decide) (by decide),
   (list_users_defaults_and_shape sampleDb (some "abc") none).2.2.1
     (by decide) (by decide),
   (list_users_defaults_and_shape sampleDb (some "abc") none).2.2.2 0 10 1
     [toPublic sampleUser] (by decide)⟩

/-- Claim C9: in every store state reachable by the write operations, with
registration requests conforming to the role enum their endpoint schema
declares, every stored user has role user or admin; registration defaults
the role to user when omitted and the OAuth path stores the schema default
user. -/
theorem role_invariant (db : List UserRow) (h : Reachable db) :
    ∀ u ∈ db, u.role = "user" ∨ u.role = "admin" := by
  induction h with
  | init =>
    intro u hu
    cases hu
  | regStep db req fid now hr hrole ih =>
    intro u hu
    unfold register at hu
    split at hu
    · exact ih u hu
    · simp only [List.mem_append, List.mem_singleton] at hu
      rcases hu with hu | rfl
      · exact ih u hu
      · rcases hrole with h | h | h <;> simp [h]
  | oauthStep secret now nextId provider db code hr ih =>
    intro u hu
    cases code with
    | none => exact ih u hu
    | some c =>
      by_cases hc : c = ""
      · simp only [googleCallback, hc, if_pos] at hu
        exact ih u hu
      · cases hp : provider c with
        | none =>
          simp only [googleCallback, hc, if_neg, hp] at hu
          exact ih u hu
        | some p =>
          cases hf : findByEmail db p.email with
          | cons v rest =>
            simp only [googleCallback, hc, if_neg, hp, hf] at hu
            exact ih u hu
          | nil =>
            simp [googleCallback, hc, hp, hf] at hu
            rcases hu with hu | rfl
            · exact ih u hu
            · left
              rfl

/-- Claim C9, witness: the user created by a concrete registration on the
empty store has one of the two enumerated roles. -/
theorem role_invariant_witness :
    sampleUser.role = "user" ∨ sampleUser.role = "admin" :=
  role_invariant (register [] sampleRegReq "u-1" 0).db
    (Reachable.regStep [] sampleRegReq "u-1" 0 Reachable.init (Or.inl rfl))
    sampleUser (by decide)

/-- Claim C10: a stored user created via the OAuth path (Google subject id
present, no password hash) makes any password login against that email fail
with 500, because the bcrypt comparison against the missing hash throws,
and not with the 401 body used for ordinary credential failures. -/
theorem login_oauth_user_is_500 (secret : String) (now : Nat)
    (db : List UserRow) (req : LoginReq) (u : UserRow) (rest : List UserRow)
    (gid : String)
    (hfind : findByEmail db req.email = u :: rest)
    (_hgid : u.google_id = some gid) (hpw : u.password = none) :
    login secret now db req = ⟨500, .message "Internal server error"⟩ ∧
    login secret now db req ≠ ⟨401, .message "Invalid email or password"⟩ := by
  have h : login secret now db req = ⟨500, .message "Internal server error"⟩ := by
    simp [login, hfind, hpw]
  refine ⟨h, ?_⟩
  rw [h]
  simp

/-- Claim C10, witness: logging in with the email of the concrete
OAuth-created user yields the 500 response. -/
theorem login_oauth_user_is_500_witness :
    login "s" 3 oauthDb ⟨"g@x.com", "pw"⟩ =
      ⟨500, .message "Internal server error"⟩ ∧
    login "s" 3 oauthDb ⟨"g@x.com", "pw"⟩ ≠
      ⟨401, .message "Invalid email or password"⟩ :=
  login_oauth_user_is_500 "s" 3 oauthDb ⟨"g@x.com", "pw"⟩ oauthRow [] "sub-1"
    (by decide) (by decide) (by decide)

end StarterPack
